import Mathlib

/-!
Verification of the cluster-agent repository: a kubectl-wrapping MCP tool
provider (src/kubectl_mcp.py) and an MCP client/orchestrator (src/client.py).

The Python sources are shallowly embedded as Lean definitions. External
effects (subprocess execution, protocol I/O) are modelled by passing the
outcome of the effect as an explicit argument; dynamically typed Python
return values are modelled by sum types listing the runtime types a value
can take.
-/

set_option autoImplicit false

/-- Embeds the `CommandResult` dataclass of src/kubectl_mcp.py:
structured result from command execution. -/
structure CommandResult where
  success : Bool
  stdout : String
  stderr : String
  return_code : Int
  error_message : Option String
  deriving DecidableEq, Repr

/-- The exceptions the command helper of src/kubectl_mcp.py catches:
`subprocess.TimeoutExpired`, `FileNotFoundError`, and any other exception
(carrying its type name and message). -/
inductive PyExc where
  | timeoutExpired
  | fileNotFound
  | other (excName : String) (excMsg : String)
  deriving DecidableEq, Repr

/-- Embeds `subprocess.CompletedProcess` as captured by `subprocess.run`
with `capture_output=True, text=True`. -/
structure CompletedProcess where
  returncode : Int
  stdout : String
  stderr : String
  deriving DecidableEq, Repr

/-- Outcome of attempting the external `subprocess.run` call: either the
process completed (any exit code) or an exception was raised. -/
inductive ExecOutcome where
  | completed (p : CompletedProcess)
  | raised (e : PyExc)
  deriving DecidableEq, Repr

/-- The dynamically typed `command` argument of `run_command_helper`: the
code guards against being handed a `str` instead of a `list[str]`. -/
inductive CommandArg where
  | ofStr (s : String)
  | ofList (l : List String)
  deriving DecidableEq, Repr

/-- Python's `f"{m}"` on an `Optional[str]` value prints `None` when absent. -/
def pyStrOfOpt : Option String → String
  | none => "None"
  | some s => s

/-- Embeds `run_command_helper` of src/kubectl_mcp.py (lines 70-130).
The source's default for `timeout_seconds` is 30; callers here pass it
explicitly. The outcome of the external `subprocess.run` call is an
explicit argument. Every path of the source constructs and returns a
`CommandResult`, matching the function's `-> CommandResult` annotation:
the string-form command is rejected before anything runs, a completed
process is wrapped with `success = (returncode == 0)`, and each caught
exception is mapped to a failure record with return code -1. -/
def run_command_helper (command : CommandArg) (timeout_seconds : Nat)
    (outcome : ExecOutcome) : CommandResult :=
  match command with
  | .ofStr _ =>
      ⟨false, "", "", -1,
        some "Security error: command must be a list, not a string"⟩
  | .ofList _ =>
      match outcome with
      | .completed result =>
          ⟨result.returncode == 0, result.stdout, result.stderr,
            result.returncode,
            if result.returncode != 0 then some result.stderr else none⟩
      | .raised .timeoutExpired =>
          ⟨false, "", "", -1,
            some ("Command timed out after " ++ toString timeout_seconds
              ++ " seconds")⟩
      | .raised .fileNotFound =>
          ⟨false, "", "", -1, some "kubectl not found."⟩
      | .raised (.other excName excMsg) =>
          ⟨false, "", "", -1,
            some ("Unexpected error: " ++ excName ++ ": " ++ excMsg)⟩

/-- The runtime type of the value `run_command_helper` could hand back to a
caller in dynamically typed Python: a structured `CommandResult`, a caught
exception object passed through as the result, or a raw
`subprocess.CompletedProcess`. -/
inductive HelperRet where
  | cr (r : CommandResult)
  | errObj (e : PyExc)
  | proc (p : CompletedProcess)
  deriving DecidableEq, Repr

/-- The dynamic-return view of `run_command_helper`, branch for branch from
src/kubectl_mcp.py lines 70-130: every `return` statement in the source
constructs a `CommandResult(...)`, so every branch produces a `.cr` value
(never an exception object, never a bare completed process). -/
def run_command_helper_ret (command : CommandArg) (timeout_seconds : Nat)
    (outcome : ExecOutcome) : HelperRet :=
  match command with
  | .ofStr _ =>
      .cr ⟨false, "", "", -1,
        some "Security error: command must be a list, not a string"⟩
  | .ofList _ =>
      match outcome with
      | .completed result =>
          .cr ⟨result.returncode == 0, result.stdout, result.stderr,
            result.returncode,
            if result.returncode != 0 then some result.stderr else none⟩
      | .raised .timeoutExpired =>
          .cr ⟨false, "", "", -1,
            some ("Command timed out after " ++ toString timeout_seconds
              ++ " seconds")⟩
      | .raised .fileNotFound =>
          .cr ⟨false, "", "", -1, some "kubectl not found."⟩
      | .raised (.other excName excMsg) =>
          .cr ⟨false, "", "", -1,
            some ("Unexpected error: " ++ excName ++ ": " ++ excMsg)⟩

/-- The two views agree: the dynamic view always wraps the structured
result. -/
theorem run_command_helper_ret_eq_cr (command : CommandArg)
    (timeout_seconds : Nat) (outcome : ExecOutcome) :
    run_command_helper_ret command timeout_seconds outcome =
      .cr (run_command_helper command timeout_seconds outcome) := by
  cases command with
  | ofStr s => rfl
  | ofList l =>
      cases outcome with
      | completed p => rfl
      | raised e => cases e <;> rfl

example :
    run_command_helper (.ofList ["kubectl", "get", "pods"]) 30
      (.raised .timeoutExpired) =
    ⟨false, "", "", -1, some "Command timed out after 30 seconds"⟩ := by
  decide

/-- A parsed JSON structure, the runtime type `json.loads` would return:
used to state what a JSON-parsing tool would hand back. -/
inductive JsonValue where
  | null
  | boolVal (b : Bool)
  | numVal (n : Int)
  | strVal (s : String)
  | arrVal (elems : List JsonValue)
  | objVal (fields : List (String × JsonValue))

/-- The runtime type of a tool handler's return value in dynamically typed
Python: a plain `str`, or a parsed JSON structure. The handlers in
src/kubectl_mcp.py are annotated `-> str` and every `return` statement
yields a string. -/
inductive ToolRet where
  | text (s : String)
  | jsonVal (j : JsonValue)

/-- Embeds the `get_all_api_resources` tool of src/kubectl_mcp.py
(lines 147-159): builds `["kubectl", "api-resources", "-o", "json"]`, runs
it through `run_command_helper` (default timeout 30), returns
`f"Error: {result.error_message}"` on failure and the raw
`result.stdout` string on success. No JSON parsing occurs. -/
def get_all_api_resources (outcome : ExecOutcome) : ToolRet :=
  let command := ["kubectl", "api-resources", "-o", "json"]
  let result := run_command_helper (.ofList command) 30 outcome
  if !result.success then
    .text ("Error: " ++ pyStrOfOpt result.error_message)
  else
    .text result.stdout

/-- Embeds the `KubectlGetInput` pydantic model of src/kubectl_mcp.py
(lines 18-41): required `resource` (min_length 1), optional `namespace`
(named `nspace` here because `namespace` is a Lean keyword), `selector`
and `output_format`, all whitespace-stripped, closed schema. -/
structure KubectlGetInput where
  resource : String
  nspace : Option String
  selector : Option String
  output_format : Option String
  deriving DecidableEq, Repr

/-- Embeds the `KubectlDescribeInput` pydantic model of src/kubectl_mcp.py
(lines 44-67): required `resource_type` (min_length 1), optional `name`,
`namespace` (`nspace` here) and `selector`, closed schema. -/
structure KubectlDescribeInput where
  resource_type : String
  name : Option String
  nspace : Option String
  selector : Option String
  deriving DecidableEq, Repr

/-- Python truthiness of an `Optional[str]`: `if params.namespace:` is
false both for `None` and for the empty string. -/
def optTruthy : Option String → Bool
  | none => false
  | some s => !(s == "")

/-- Embeds the command construction of the `kubectl_get_resource` tool of
src/kubectl_mcp.py (lines 179-185): starts from
`["kubectl", "get", resource]`, then appends `-n`, `-o` and `--selector`
flags in that order, each guarded by Python truthiness of the
corresponding optional field. -/
def kubectl_get_command (params : KubectlGetInput) : List String :=
  let command := ["kubectl", "get", params.resource]
  let command :=
    if optTruthy params.nspace then command ++ ["-n", params.nspace.getD ""]
    else command
  let command :=
    if optTruthy params.output_format then
      command ++ ["-o", params.output_format.getD ""]
    else command
  let command :=
    if optTruthy params.selector then
      command ++ ["--selector", params.selector.getD ""]
    else command
  command

/-- The declared field set of `KubectlGetInput`. -/
def getInputFields : List String :=
  ["resource", "namespace", "selector", "output_format"]

/-- The declared field set of `KubectlDescribeInput`. -/
def describeInputFields : List String :=
  ["resource_type", "name", "namespace", "selector"]

/-- Pydantic validation of a raw input object (a string-to-string mapping,
given as key-value pairs) against `KubectlGetInput`: the model's
`ConfigDict` sets `extra='forbid'` (any unknown key is rejected) and
`str_strip_whitespace=True` (values are trimmed); `resource` is required
with `min_length=1`. -/
def validateKubectlGetInput (obj : List (String × String)) :
    Except String KubectlGetInput :=
  if obj.any (fun kv => !(getInputFields.contains kv.fst)) then
    .error "Extra inputs are not permitted"
  else
    let lookup := fun (k : String) =>
      (obj.find? (fun kv => kv.fst == k)).map (fun kv => kv.snd.trim)
    match lookup "resource" with
    | none => .error "Field required: resource"
    | some r =>
        if r.length < 1 then
          .error "String should have at least 1 character"
        else
          .ok ⟨r, lookup "namespace", lookup "selector",
            lookup "output_format"⟩

/-- Pydantic validation against `KubectlDescribeInput`: same closed-schema
and trimming rules; `resource_type` is required with `min_length=1`. -/
def validateKubectlDescribeInput (obj : List (String × String)) :
    Except String KubectlDescribeInput :=
  if obj.any (fun kv => !(describeInputFields.contains kv.fst)) then
    .error "Extra inputs are not permitted"
  else
    let lookup := fun (k : String) =>
      (obj.find? (fun kv => kv.fst == k)).map (fun kv => kv.snd.trim)
    match lookup "resource_type" with
    | none => .error "Field required: resource_type"
    | some r =>
        if r.length < 1 then
          .error "String should have at least 1 character"
        else
          .ok ⟨r, lookup "name", lookup "namespace", lookup "selector"⟩

example :
    kubectl_get_command ⟨"pods", some "kube-system", some "app=x", some "json"⟩ =
      ["kubectl", "get", "pods", "-n", "kube-system", "-o", "json",
        "--selector", "app=x"] := by decide

example :
    validateKubectlGetInput [("resource", "pods"), ("bogus", "1")] =
      .error "Extra inputs are not permitted" := by rfl

/-- An established protocol session (the external `ClientSession` of the
mcp SDK), modelled opaquely by an identifier. -/
structure ClientSession where
  sessionId : Nat
  deriving DecidableEq, Repr

/-- A tool descriptor (the external `mcp.types.Tool`), modelled by the
parts the client reads: name and optional description. -/
structure MCPTool where
  name : String
  description : Option String
  deriving DecidableEq, Repr

/-- Observable state of the `MCPClient` class of src/client.py: the
session handle (`self.session`, `None` until connected) and the cached
tool list (`self.tools`). The `AsyncExitStack` holds external resources
and has no further observable state. -/
structure MCPClient where
  session : Option ClientSession
  tools : List MCPTool
  deriving DecidableEq, Repr

/-- A content block of a tool-call result: the source keeps exactly the
blocks that expose a `text` attribute (`hasattr(content, 'text')`), so a
block is modelled as text-bearing or not. -/
inductive ContentBlock where
  | textBlock (text : String)
  | otherBlock
  deriving DecidableEq, Repr

/-- The result of `session.call_tool` as the client consumes it: a list of
content blocks. -/
structure CallToolResult where
  content : List ContentBlock
  deriving DecidableEq, Repr

/-- Embeds `MCPClient.refresh_tools` of src/client.py (lines 42-50):
raises `RuntimeError("Not connected to a server")` when no session is
established, otherwise stores the tool list returned by the session's
`list_tools` response (passed here as the explicit outcome of that
external call) into `self.tools`. -/
def MCPClient.refresh_tools (c : MCPClient) (responseTools : List MCPTool) :
    Except String MCPClient :=
  match c.session with
  | none => .error "Not connected to a server"
  | some s => .ok ⟨some s, responseTools⟩

/-- The content-collection loop of `MCPClient.call_tool` (src/client.py
lines 62-65): starting from an empty `content_parts` list, append
`content.text` for each block that has a `text` attribute, skip the
rest. -/
def collectTextParts (blocks : List ContentBlock) (acc : List String) :
    List String :=
  match blocks with
  | [] => acc
  | .textBlock t :: rest => collectTextParts rest (acc ++ [t])
  | .otherBlock :: rest => collectTextParts rest acc

/-- Embeds `MCPClient.call_tool` of src/client.py (lines 55-67): raises
`RuntimeError("Not connected to a server")` when no session is
established; otherwise collects the text payloads of the result's content
blocks (see `collectTextParts`) and returns `"\n".join(content_parts)`.
The provider's result is passed as the explicit outcome of the external
`session.call_tool` call. -/
def MCPClient.call_tool (c : MCPClient) (result : CallToolResult) :
    Except String String :=
  match c.session with
  | none => .error "Not connected to a server"
  | some _ =>
      let content_parts := collectTextParts result.content []
      .ok (String.intercalate "\n" content_parts)

/-- Embeds `MCPClient.close` of src/client.py (lines 69-73): releases the
exit stack's resources (external effect), then sets `self.session = None`
and `self.tools = []`. -/
def MCPClient.close (_c : MCPClient) : MCPClient :=
  ⟨none, []⟩

/-- The text payload of a content block, when it has one. -/
def ContentBlock.textPayload : ContentBlock → Option String
  | .textBlock t => some t
  | .otherBlock => none

/-- Whether `pat` occurs at the start of `l`. -/
def listIsPref : List Char → List Char → Bool
  | [], _ => true
  | _ :: _, [] => false
  | a :: pat, b :: l => a == b && listIsPref pat l

/-- Whether `pat` occurs contiguously anywhere in `l`. -/
def listIsInf (pat : List Char) : List Char → Bool
  | [] => listIsPref pat []
  | b :: l => listIsPref pat (b :: l) || listIsInf pat l

/-- Whether `pat` occurs as a contiguous substring of `s`. -/
def strContains (s pat : String) : Bool :=
  listIsInf pat.toList s.toList

example : strContains "Command timed out after 30 seconds" "30" = true := by
  decide

theorem listIsPref_self_append (p r : List Char) :
    listIsPref p (p ++ r) = true := by
  induction p with
  | nil => rfl
  | cons a as ih => simp [listIsPref, ih]

theorem listIsPref_listIsInf (pat l : List Char)
    (h : listIsPref pat l = true) : listIsInf pat l = true := by
  cases l with
  | nil => simpa [listIsInf] using h
  | cons b l => simp [listIsInf, h]

theorem listIsInf_append (pre pat post : List Char) :
    listIsInf pat (pre ++ (pat ++ post)) = true := by
  induction pre with
  | nil => exact listIsPref_listIsInf _ _ (listIsPref_self_append pat post)
  | cons b pre ih => simp [listIsInf, ih]

theorem str_data_append (s t : String) :
    (s ++ t).data = s.data ++ t.data := by
  cases s; cases t; rfl

theorem strContains_middle (a b c : String) :
    strContains (a ++ b ++ c) b = true := by
  have h : (a ++ b ++ c).toList = a.toList ++ (b.toList ++ c.toList) := by
    simp only [String.toList, str_data_append, List.append_assoc]
  unfold strContains
  rw [h]
  exact listIsInf_append _ _ _

theorem collectTextParts_spec (blocks : List ContentBlock)
    (acc : List String) :
    collectTextParts blocks acc =
      acc ++ blocks.filterMap ContentBlock.textPayload := by
  induction blocks generalizing acc with
  | nil => simp [collectTextParts]
  | cons cb rest ih =>
      cases cb with
      | textBlock t =>
          simp [collectTextParts, ih, ContentBlock.textPayload]
      | otherBlock =>
          simp [collectTextParts, ih, ContentBlock.textPayload]

/-- C1 counterexample: no failing execution makes `run_command_helper`
return the caught error object as its result — every branch of the source
(src/kubectl_mcp.py lines 70-130) returns a constructed `CommandResult`,
never the exception object. -/
theorem run_command_helper_no_errObj :
    ¬ ∃ (c : List String) (t : Nat) (e : PyExc),
      run_command_helper_ret (.ofList c) t (.raised e) = .errObj e := by
  rintro ⟨c, t, e, h⟩
  rw [run_command_helper_ret_eq_cr] at h
  exact HelperRet.noConfusion h

/-- C1 (amended): `run_command_helper` always returns a structured
`CommandResult` — never the caught error object and never the raw
completed process — and on every caught exception that result is a
failure record with `success = false`, return code -1, and an error
message present. -/
theorem run_command_helper_always_structured :
    (∀ (a : CommandArg) (t : Nat) (o : ExecOutcome),
      ∃ r : CommandResult, run_command_helper_ret a t o = .cr r) ∧
    (∀ (c : List String) (t : Nat) (e : PyExc),
      ∃ r : CommandResult,
        run_command_helper_ret (.ofList c) t (.raised e) = .cr r ∧
          r.success = false ∧ r.return_code = -1 ∧
          r.error_message.isSome = true) := by
  constructor
  · intro a t o
    exact ⟨run_command_helper a t o, run_command_helper_ret_eq_cr a t o⟩
  · intro c t e
    refine ⟨run_command_helper (.ofList c) t (.raised e),
      run_command_helper_ret_eq_cr _ _ _, ?_⟩
    cases e <;> exact ⟨rfl, rfl, rfl⟩

/-- C2 counterexample: on a succeeding `kubectl api-resources -o json`
invocation the tool does not return a parsed JSON structure — at the
concrete completed process with exit code 0 and stdout
`"api resource listing"` the returned value is that raw string, not a
`jsonVal`. -/
theorem get_all_api_resources_not_parsed :
    ¬ ∃ j : JsonValue,
      get_all_api_resources (.completed ⟨0, "api resource listing", ""⟩) =
        .jsonVal j := by
  rintro ⟨j, h⟩
  rw [show get_all_api_resources (.completed ⟨0, "api resource listing", ""⟩)
      = ToolRet.text "api resource listing" from rfl] at h
  exact ToolRet.noConfusion h

/-- C2 (amended): for every invocation of `get_all_api_resources` whose
underlying command succeeds, the tool returns the command's raw standard
output text unchanged, performing no JSON parsing. -/
theorem get_all_api_resources_raw_stdout (p : CompletedProcess)
    (h : p.returncode = 0) :
    get_all_api_resources (.completed p) = .text p.stdout := by
  simp [get_all_api_resources, run_command_helper, h]

/-- Witness for `get_all_api_resources_raw_stdout` at a concrete
completed process. -/
theorem get_all_api_resources_raw_stdout_witness :
    (⟨0, "kind: APIResourceList", ""⟩ : CompletedProcess).returncode = 0 ∧
    get_all_api_resources (.completed ⟨0, "kind: APIResourceList", ""⟩) =
      .text "kind: APIResourceList" :=
  ⟨rfl, get_all_api_resources_raw_stdout ⟨0, "kind: APIResourceList", ""⟩ rfl⟩

/-- C3: for every well-formed `KubectlGetInput` with only the required
`resource` field set (namespace, selector and output_format all absent),
the built command is exactly `["kubectl", "get", resource]`. -/
theorem kubectl_get_command_minimal (resource : String)
    (hres : resource ≠ "") :
    kubectl_get_command ⟨resource, none, none, none⟩ =
      ["kubectl", "get", resource] := by
  simp [kubectl_get_command, optTruthy]

/-- Witness for `kubectl_get_command_minimal` at `resource = "pods"`. -/
theorem kubectl_get_command_minimal_witness :
    "pods" ≠ "" ∧
    kubectl_get_command ⟨"pods", none, none, none⟩ =
      ["kubectl", "get", "pods"] :=
  ⟨by decide, kubectl_get_command_minimal "pods" (by decide)⟩

/-- C4 counterexample: a `KubectlGetInput` whose optional fields are all
set to the empty string has all four fields set, yet the built command
carries no flags at all (Python truthiness treats `""` like `None`), so
the claimed flag sequence is not appended. -/
theorem kubectl_get_command_empty_fields_cex :
    kubectl_get_command ⟨"pods", some "", some "", some ""⟩ =
      ["kubectl", "get", "pods"] ∧
    kubectl_get_command ⟨"pods", some "", some "", some ""⟩ ≠
      ["kubectl", "get", "pods", "-n", "", "-o", "", "--selector", ""] := by
  exact ⟨rfl, by decide⟩

/-- C4 (amended): for every `KubectlGetInput` whose four fields are all
set to non-empty strings, the built command appends `-n <namespace>`,
then `-o <output_format>`, then `--selector <selector>`, in that order,
after `["kubectl", "get", <resource>]`. -/
theorem kubectl_get_command_all_fields (resource ns fmt sel : String)
    (hres : resource ≠ "") (hns : ns ≠ "") (hfmt : fmt ≠ "")
    (hsel : sel ≠ "") :
    kubectl_get_command ⟨resource, some ns, some sel, some fmt⟩ =
      ["kubectl", "get", resource, "-n", ns, "-o", fmt,
        "--selector", sel] := by
  simp [kubectl_get_command, optTruthy, hns, hfmt, hsel]

/-- Witness for `kubectl_get_command_all_fields` at concrete field
values. -/
theorem kubectl_get_command_all_fields_witness :
    "pods" ≠ "" ∧ "default" ≠ "" ∧ "json" ≠ "" ∧ "app=web" ≠ "" ∧
    kubectl_get_command ⟨"pods", some "default", some "app=web",
        some "json"⟩ =
      ["kubectl", "get", "pods", "-n", "default", "-o", "json",
        "--selector", "app=web"] :=
  ⟨by decide, by decide, by decide, by decide,
    kubectl_get_command_all_fields "pods" "default" "json" "app=web"
      (by decide) (by decide) (by decide) (by decide)⟩

/-- C5: an input object carrying a field name outside the declared field
set of `KubectlGetInput`, respectively `KubectlDescribeInput`, is
rejected by the respective validation (the models set `extra='forbid'`),
rather than the unknown field being ignored. -/
theorem validate_rejects_unknown_fields
    (obj : List (String × String)) (k v : String) (hmem : (k, v) ∈ obj) :
    (k ∉ getInputFields →
      ∃ msg, validateKubectlGetInput obj = Except.error msg) ∧
    (k ∉ describeInputFields →
      ∃ msg, validateKubectlDescribeInput obj = Except.error msg) := by
  constructor
  · intro hk
    have hany : obj.any (fun kv => !(getInputFields.contains kv.fst)) = true := by
      apply List.any_eq_true.mpr
      refine ⟨(k, v), hmem, ?_⟩
      simpa using hk
    refine ⟨"Extra inputs are not permitted", ?_⟩
    unfold validateKubectlGetInput
    rw [hany]
    rfl
  · intro hk
    have hany : obj.any (fun kv => !(describeInputFields.contains kv.fst)) = true := by
      apply List.any_eq_true.mpr
      refine ⟨(k, v), hmem, ?_⟩
      simpa using hk
    refine ⟨"Extra inputs are not permitted", ?_⟩
    unfold validateKubectlDescribeInput
    rw [hany]
    rfl

/-- Witness for `validate_rejects_unknown_fields`: an object with the
unknown field `bogus` is rejected by both validations. -/
theorem validate_rejects_unknown_fields_witness :
    ("bogus", "1") ∈
      [("resource", "pods"), ("resource_type", "pods"), ("bogus", "1")] ∧
    "bogus" ∉ getInputFields ∧ "bogus" ∉ describeInputFields ∧
    (∃ msg, validateKubectlGetInput
      [("resource", "pods"), ("resource_type", "pods"), ("bogus", "1")] =
        Except.error msg) ∧
    (∃ msg, validateKubectlDescribeInput
      [("resource", "pods"), ("resource_type", "pods"), ("bogus", "1")] =
        Except.error msg) :=
  ⟨by decide, by decide, by decide,
    (validate_rejects_unknown_fields _ "bogus" "1" (by decide)).1 (by decide),
    (validate_rejects_unknown_fields _ "bogus" "1" (by decide)).2 (by decide)⟩

/-- C6: a command execution that exceeds the configured timeout yields a
structured `CommandResult` whose success flag is false, whose return code
is -1, and whose error message contains the configured timeout value
(the source's default for `timeout_seconds` is 30). -/
theorem run_command_helper_timeout_structured (c : List String) (t : Nat) :
    run_command_helper (.ofList c) t (.raised .timeoutExpired) =
      ⟨false, "", "", -1,
        some ("Command timed out after " ++ toString t ++ " seconds")⟩ ∧
    strContains ("Command timed out after " ++ toString t ++ " seconds")
      (toString t) = true :=
  ⟨rfl, strContains_middle "Command timed out after " (toString t) " seconds"⟩

/-- C7: on a client without an established session — freshly constructed
or after `close` — both session-dependent operations `refresh_tools` and
`call_tool` fail with the not-connected error, not a silent no-op. -/
theorem not_connected_ops_fail :
    (∀ (tools responseTools : List MCPTool),
      MCPClient.refresh_tools ⟨none, tools⟩ responseTools =
        .error "Not connected to a server") ∧
    (∀ (tools : List MCPTool) (result : CallToolResult),
      MCPClient.call_tool ⟨none, tools⟩ result =
        .error "Not connected to a server") ∧
    (∀ (c : MCPClient) (responseTools : List MCPTool),
      MCPClient.refresh_tools (MCPClient.close c) responseTools =
        .error "Not connected to a server") ∧
    (∀ (c : MCPClient) (result : CallToolResult),
      MCPClient.call_tool (MCPClient.close c) result =
        .error "Not connected to a server") :=
  ⟨fun _ _ => rfl, fun _ _ => rfl, fun _ _ => rfl, fun _ _ => rfl⟩

/-- C8: on a connected client, `call_tool` returns the newline-separated
concatenation of the text payloads of exactly the text-bearing content
blocks of the result, in order; two text blocks `"a"` and `"b"` (with a
non-text block between them, silently dropped) yield `"a\n b"` without
the blank, and no text-bearing blocks yield the empty string. -/
theorem call_tool_joins_text_blocks :
    (∀ (s : ClientSession) (tools : List MCPTool)
        (blocks : List ContentBlock),
      MCPClient.call_tool ⟨some s, tools⟩ ⟨blocks⟩ =
        .ok (String.intercalate "\n"
          (blocks.filterMap ContentBlock.textPayload))) ∧
    MCPClient.call_tool ⟨some ⟨0⟩, []⟩
      ⟨[.textBlock "a", .otherBlock, .textBlock "b"]⟩ = .ok "a\nb" ∧
    MCPClient.call_tool ⟨some ⟨0⟩, []⟩ ⟨[.otherBlock]⟩ = .ok "" := by
  refine ⟨?_, ?_, ?_⟩
  · intro s tools blocks
    simp [MCPClient.call_tool, collectTextParts_spec]
  · rfl
  · rfl

/-- C9: `close` is idempotent on observable client state: after one
`close` the session handle is `none` and the tool cache is empty, and
closing again leaves the state unchanged. -/
theorem close_idempotent :
    ∀ c : MCPClient,
      (MCPClient.close c).session = none ∧
      (MCPClient.close c).tools = [] ∧
      MCPClient.close (MCPClient.close c) = MCPClient.close c :=
  fun _ => ⟨rfl, rfl, rfl⟩

/-- C10: `run_command_helper` is total over its interface: every call
returns a structured `CommandResult` (never a propagated exception); a
string-form command yields the security failure independently of any
execution outcome (no command is executed); and every caught exception is
mapped to a failure `CommandResult` with success false and return code
-1. -/
theorem run_command_helper_total_safe :
    (∀ (a : CommandArg) (t : Nat) (o : ExecOutcome),
      ∃ r : CommandResult, run_command_helper_ret a t o = .cr r) ∧
    (∀ (s : String) (t : Nat) (o : ExecOutcome),
      run_command_helper (.ofStr s) t o =
        ⟨false, "", "", -1,
          some "Security error: command must be a list, not a string"⟩) ∧
    (∀ (c : List String) (t : Nat) (e : PyExc),
      (run_command_helper (.ofList c) t (.raised e)).success = false ∧
      (run_command_helper (.ofList c) t (.raised e)).return_code = -1) := by
  refine ⟨?_, ?_, ?_⟩
  · intro a t o
    exact ⟨run_command_helper a t o, run_command_helper_ret_eq_cr a t o⟩
  · intro s t o
    rfl
  · intro c t e
    cases e <;> exact ⟨rfl, rfl⟩
